import Mathlib

/-!
Verification of the kvirt-exporter VM CPU collector
(`collector/collector.go`).

The embedding models strings as `List Char`.  External command outputs and
file contents (which the Go code obtains through `exec.Command`,
`filepath.Glob` and `os.ReadFile`) are supplied by an abstract environment;
all parsing and arithmetic is translated from the source.  Fallible reads
are `Except Unit` values; float64 percentage arithmetic is modelled over ℚ.
-/

namespace KvirtExporter

/-- Whitespace test used by Go's `strings.Fields` (for the ASCII range of
`unicode.IsSpace`). -/
def isSpaceChar (c : Char) : Bool :=
  c = ' ' || c = '\t' || c = '\n' || c = '\x0b' || c = '\x0c' || c = '\r'

/-- Accumulator-passing worker for `fields`: splits a character list around
runs of whitespace.  `acc` holds the current field, reversed. -/
def fieldsAux : List Char → List Char → List (List Char)
  | [], acc => if acc.isEmpty then [] else [acc.reverse]
  | c :: cs, acc =>
    if isSpaceChar c then
      if acc.isEmpty then fieldsAux cs [] else acc.reverse :: fieldsAux cs []
    else fieldsAux cs (c :: acc)

/-- Go `strings.Fields`: the maximal whitespace-free substrings, in order. -/
def fields (s : List Char) : List (List Char) :=
  fieldsAux s []

/-- Worker for `splitLines`. -/
def splitLinesAux : List Char → List Char → List (List Char)
  | [], acc => [acc.reverse]
  | c :: cs, acc =>
    if c = '\n' then acc.reverse :: splitLinesAux cs []
    else splitLinesAux cs (c :: acc)

/-- Go `strings.Split(s, "\n")`: the segments between newlines, empty
segments kept, always at least one segment. -/
def splitLines (s : List Char) : List (List Char) :=
  splitLinesAux s []

/-- Numeric value of a digit run, most significant first
(Go `strconv` accumulation). -/
def digitsToNat (ds : List Char) : Nat :=
  ds.foldl (fun a c => a * 10 + (c.toNat - 48)) 0

/-- Sign handling of Go `strconv.ParseInt`: strips one optional leading
`+` or `-` and reports whether the value is negated. -/
def stripSign : List Char → Bool × List Char
  | '+' :: rest => (false, rest)
  | '-' :: rest => (true, rest)
  | s => (false, s)

/-- Syntactic validity for Go `strconv.ParseInt(s, 10, 64)`: after the
optional sign the string is a non-empty run of decimal digits. -/
def isValidInt64 (s : List Char) : Bool :=
  let ds := (stripSign s).2
  !ds.isEmpty && ds.all Char.isDigit

/-- Go `strconv.ParseInt(s, 10, 64)` as (value, success).  On a syntax
error the value is 0; on a range error the value is the clamped extreme of
the 64-bit signed range (both with `success = false`), exactly as
`ParseInt` reports alongside its non-nil error. -/
def parseInt64 (s : List Char) : Int × Bool :=
  let (neg, ds) := stripSign s
  if !ds.isEmpty && ds.all Char.isDigit then
    let n := digitsToNat ds
    if neg then
      if n ≤ 9223372036854775808 then (-(n : Int), true)
      else (-9223372036854775808, false)
    else
      if n ≤ 9223372036854775807 then ((n : Int), true)
      else (9223372036854775807, false)
  else (0, false)

/-- The (user-ticks, system-ticks) contribution of one readable per-thread
stat record: records with fewer than 15 whitespace-delimited fields are
skipped (contribute nothing); otherwise fields 13 and 14 are parsed with
the parse error discarded, as in `getCPUStats`'s loop body. -/
def recordTicks (data : List Char) : Int × Int :=
  let parts := fields data
  if parts.length < 15 then (0, 0)
  else ((parseInt64 (parts.getD 13 [])).1, (parseInt64 (parts.getD 14 [])).1)

/-- The summation loop of `getCPUStats`: each task is the result of
`os.ReadFile` on one `/proc/<pid>/task/<tid>/stat` entry; unreadable tasks
are skipped (`continue`), readable ones contribute `recordTicks`. -/
def sumTaskStats : List (Except Unit (List Char)) → Int × Int
  | [] => (0, 0)
  | Except.error _ :: ts => sumTaskStats ts
  | Except.ok data :: ts =>
    let c := recordTicks data
    let rest := sumTaskStats ts
    (c.1 + rest.1, c.2 + rest.2)

/-- `getCPUStats`: `tasks` is the outcome of `filepath.Glob` over the
process's task directory — an error if the glob itself fails, otherwise
the list of per-thread read attempts.  A glob error is returned; otherwise
the summed (user, system) tick totals are returned without error. -/
def getCPUStats (tasks : Except Unit (List (Except Unit (List Char)))) :
    Except Unit (Int × Int) :=
  match tasks with
  | Except.error e => Except.error e
  | Except.ok ts => Except.ok (sumTaskStats ts)

/-- The literal `"cpu "` marker that `getIOWait` looks for with
`strings.HasPrefix`. -/
def cpuMarker : List Char := ['c', 'p', 'u', ' ']

/-- The line scan of `getIOWait`: the first line starting with `"cpu "`
and having more than 5 fields yields `strconv.ParseInt` of field 5 (its
error propagated); if no line qualifies the result is 0 with no error. -/
def iowaitScan : List (List Char) → Except Unit Int
  | [] => Except.ok 0
  | line :: rest =>
    if cpuMarker.isPrefixOf line then
      let parts := fields line
      if 5 < parts.length then
        let pr := parseInt64 (parts.getD 5 [])
        if pr.2 then Except.ok pr.1 else Except.error ()
      else iowaitScan rest
    else iowaitScan rest

/-- `getIOWait`: `file` is the outcome of `os.ReadFile("/proc/stat")`; a
read error is returned, otherwise the lines are scanned for the aggregate
cpu row. -/
def getIOWait (file : Except Unit (List Char)) : Except Unit Int :=
  match file with
  | Except.error e => Except.error e
  | Except.ok data => iowaitScan (splitLines data)

/-- The inputs one collection cycle draws from the host, keyed the way the
code requests them: `vmList` is `getVMList`'s outcome, `vcpuOut`/`pidOut`
are `getVCPUCount`/`getQEMUPID` per VM name, `tasks1`/`tasks2` are the
glob-and-read outcomes per PID at the two snapshots, and
`statFile1`/`statFile2` are the `/proc/stat` contents read during the two
snapshots of the given VM's window. -/
structure Env where
  vmList : Except Unit (List String)
  vcpuOut : String → Except Unit Int
  pidOut : String → Except Unit String
  tasks1 : String → Except Unit (List (Except Unit (List Char)))
  statFile1 : String → Except Unit (List Char)
  tasks2 : String → Except Unit (List (Except Unit (List Char)))
  statFile2 : String → Except Unit (List Char)

/-- The `if userPct < 0 ... = 0` clamp of `Collect`. -/
def clampNonneg (q : ℚ) : ℚ :=
  if q < 0 then 0 else q

/-- The body of `Collect`'s per-VM loop: resolves the vCPU count (error or
0 skips), the QEMU PID (error or empty skips), takes the two snapshots
(any error skips), then computes the clamped user/system/iowait
percentages over `totalInterval = tick / 10 * vcpuCount`.  `none` is a
skip (`continue`); `some` is the triple written to the three gauges. -/
def processVM (tick : Int) (env : Env) (vm : String) : Option (ℚ × ℚ × ℚ) :=
  match env.vcpuOut vm with
  | Except.error _ => none
  | Except.ok vcpuCount =>
    if vcpuCount = 0 then none
    else match env.pidOut vm with
    | Except.error _ => none
    | Except.ok pid =>
      if pid = "" then none
      else match getCPUStats (env.tasks1 pid) with
      | Except.error _ => none
      | Except.ok (utime1, stime1) =>
        match getIOWait (env.statFile1 vm) with
        | Except.error _ => none
        | Except.ok iowait1 =>
          match getCPUStats (env.tasks2 pid) with
          | Except.error _ => none
          | Except.ok (utime2, stime2) =>
            match getIOWait (env.statFile2 vm) with
            | Except.error _ => none
            | Except.ok iowait2 =>
              let utimeDiff : Int := utime2 - utime1
              let stimeDiff : Int := stime2 - stime1
              let iowaitDiff : Int := iowait2 - iowait1
              let totalInterval : ℚ := (tick : ℚ) / 10 * (vcpuCount : ℚ)
              let userPct := clampNonneg ((utimeDiff : ℚ) * 100 / totalInterval)
              let systemPct := clampNonneg ((stimeDiff : ℚ) * 100 / totalInterval)
              let iowaitPct := clampNonneg ((iowaitDiff : ℚ) * 100 / totalInterval)
              some (userPct, systemPct, iowaitPct)

/-- One `Collect` invocation, as the list of gauge-write triples it
performs: an enumeration error abandons the cycle with no writes; otherwise
each VM that is not skipped contributes its three published percentages
under its own label. -/
def collectCycle (tick : Int) (env : Env) : List (String × ℚ × ℚ × ℚ) :=
  match env.vmList with
  | Except.error _ => []
  | Except.ok vms =>
    vms.filterMap fun vm =>
      (processVM tick env vm).map fun r => (vm, r.1, r.2.1, r.2.2)

/-- Specification-side summation: componentwise sum of `recordTicks` over a
list of readable records. -/
def sumRecords : List (List Char) → Int × Int
  | [] => (0, 0)
  | d :: ds => ((recordTicks d).1 + (sumRecords ds).1,
                (recordTicks d).2 + (sumRecords ds).2)

/-- The per-VM skip conditions of `Collect`'s loop, as the code tests them:
vCPU lookup error or zero, PID lookup error or empty, or an error from any
of the four snapshot reads. -/
def vmCycleFailure (env : Env) (vm : String) : Prop :=
  env.vcpuOut vm = Except.error () ∨ env.vcpuOut vm = Except.ok 0 ∨
  ∃ v, env.vcpuOut vm = Except.ok v ∧ v ≠ 0 ∧
    (env.pidOut vm = Except.error () ∨ env.pidOut vm = Except.ok "" ∨
     ∃ p, env.pidOut vm = Except.ok p ∧ p ≠ "" ∧
       (getCPUStats (env.tasks1 p) = Except.error () ∨
        getIOWait (env.statFile1 vm) = Except.error () ∨
        getCPUStats (env.tasks2 p) = Except.error () ∨
        getIOWait (env.statFile2 vm) = Except.error ()))

section Lemmas

lemma clampNonneg_nonneg (q : ℚ) : 0 ≤ clampNonneg q := by
  unfold clampNonneg
  split <;> [exact le_refl 0; linarith [not_lt.mp (by assumption : ¬ q < 0)]]

lemma parseInt64_invalid {s : List Char} (h : isValidInt64 s = false) :
    parseInt64 s = (0, false) := by
  unfold isValidInt64 at h
  unfold parseInt64
  rcases hss : stripSign s with ⟨neg, ds⟩
  rw [hss] at h
  simp only at h ⊢
  simp [h]

lemma fields_cpu_head {line : List Char}
    (h : cpuMarker.isPrefixOf line = true) :
    ∃ t, line = 'c' :: 'p' :: 'u' :: ' ' :: t ∧
      fields line = ['c', 'p', 'u'] :: fields t := by
  obtain ⟨t, ht⟩ := List.isPrefixOf_iff_prefix.mp h
  refine ⟨t, ht.symm ▸ rfl, ?_⟩
  rw [← ht]
  rfl

lemma iowaitScan_no_row (lines : List (List Char))
    (h : ∀ line ∈ lines,
      (fields line).head? = some ['c', 'p', 'u'] → (fields line).length ≤ 5) :
    iowaitScan lines = Except.ok 0 := by
  induction lines with
  | nil => rfl
  | cons line rest ih =>
    have hrest : iowaitScan rest = Except.ok 0 :=
      ih fun l hl => h l (List.mem_cons_of_mem _ hl)
    unfold iowaitScan
    by_cases hp : cpuMarker.isPrefixOf line = true
    · obtain ⟨t, _, hf⟩ := fields_cpu_head hp
      have hlen : (fields line).length ≤ 5 :=
        h line (List.mem_cons_self _ _) (by rw [hf]; rfl)
      rw [hp]
      simp only [if_true]
      rw [if_neg (by omega), hrest]
    · rw [Bool.not_eq_true] at hp
      rw [hp]
      simp only [Bool.false_eq_true, if_false]
      exact hrest

end Lemmas

/-- C2: `getCPUStats` fails exactly when thread enumeration (the glob over
the task directory) fails; on every successfully enumerated task list it
returns a (user, system) tick pair without error. -/
theorem getCPUStats_error_iff
    (tasks : Except Unit (List (Except Unit (List Char)))) :
    (getCPUStats tasks = Except.error () ↔ tasks = Except.error ()) ∧
    (∀ ts, tasks = Except.ok ts →
      ∃ u s, getCPUStats tasks = Except.ok (u, s)) := by
  constructor
  · cases tasks <;> simp [getCPUStats]
  · rintro ts rfl
    exact ⟨(sumTaskStats ts).1, (sumTaskStats ts).2, rfl⟩

/-- Witness for C2: a failed enumeration propagates the error, and a
concrete two-thread task list yields a tick pair without error. -/
theorem getCPUStats_error_iff_witness :
    getCPUStats (Except.error ()) = Except.error () ∧
    ∃ u s, getCPUStats
        (Except.ok [Except.ok "7 (qemu) S 0 0 0 0 0 0 0 0 0 0 5 3 0".toList])
      = Except.ok (u, s) :=
  ⟨(getCPUStats_error_iff (Except.error ())).1.mpr rfl,
   (getCPUStats_error_iff _).2 _ rfl⟩

/-- C4: on a readable task list, `getCPUStats` returns, without error, the
componentwise sums of the user and system tick fields taken over exactly
the readable subset of the per-thread records; unreadable records are
skipped and never cause an error. -/
theorem getCPUStats_readable_subset (ts : List (Except Unit (List Char))) :
    getCPUStats (Except.ok ts) =
      Except.ok (sumRecords (ts.filterMap Except.toOption)) := by
  simp only [getCPUStats, Except.ok.injEq]
  induction ts with
  | nil => rfl
  | cons t ts ih =>
    cases t with
    | error e => simpa [sumTaskStats, Except.toOption] using ih
    | ok d => simp [sumTaskStats, sumRecords, Except.toOption, ih]

/-- C9: when `/proc/stat` is readable but holds no aggregate `cpu` row with
more than five fields, `getIOWait` returns 0 with no error — a missing or
short aggregate row is indistinguishable from a zero iowait counter. -/
theorem getIOWait_missing_cpu_row (data : List Char)
    (h : ∀ line ∈ splitLines data,
      (fields line).head? = some ['c', 'p', 'u'] → (fields line).length ≤ 5) :
    getIOWait (Except.ok data) = Except.ok 0 := by
  unfold getIOWait
  exact iowaitScan_no_row _ h

/-- Witness for C9: a stat file without a `cpu` row, and one whose `cpu`
row has only five fields, both yield 0 without error. -/
theorem getIOWait_missing_cpu_row_witness :
    getIOWait (Except.ok "intr 5\nctxt 9".toList) = Except.ok 0 ∧
    getIOWait (Except.ok "cpu 1 2 3 4".toList) = Except.ok 0 :=
  ⟨getIOWait_missing_cpu_row _ (by decide),
   getIOWait_missing_cpu_row _ (by decide)⟩

/-- C10: the `getCPUStats` loop skips any record with fewer than 15
whitespace-delimited fields; a record whose field 13 (resp. 14) is not a
valid integer contributes 0 for that field, the discarded parse error never
aborting the sum or producing a call-level error. -/
theorem getCPUStats_record_tolerance :
    (∀ (data : List Char) (ts : List (Except Unit (List Char))),
      (fields data).length < 15 →
      sumTaskStats (Except.ok data :: ts) = sumTaskStats ts) ∧
    (∀ data : List Char, 15 ≤ (fields data).length →
      (isValidInt64 ((fields data).getD 13 []) = false →
        (recordTicks data).1 = 0) ∧
      (isValidInt64 ((fields data).getD 14 []) = false →
        (recordTicks data).2 = 0)) ∧
    (∀ (data : List Char) (ts : List (Except Unit (List Char))),
      getCPUStats (Except.ok (Except.ok data :: ts)) =
        Except.ok (sumTaskStats (Except.ok data :: ts))) := by
  refine ⟨?_, ?_, fun _ _ => rfl⟩
  · intro data ts hshort
    simp [sumTaskStats, recordTicks, hshort]
  · intro data hlong
    constructor
    · intro hbad
      simp only [recordTicks]
      rw [if_neg (Nat.not_lt.mpr hlong)]
      simp only [parseInt64_invalid hbad]
    · intro hbad
      simp only [recordTicks]
      rw [if_neg (Nat.not_lt.mpr hlong)]
      simp only [parseInt64_invalid hbad]

/-- Witness for C10: a 2-field record is skipped, and a 15-field record
with a non-numeric field 13 contributes (0, 7). -/
theorem getCPUStats_record_tolerance_witness :
    sumTaskStats [Except.ok "12 (x)".toList] = sumTaskStats [] ∧
    (recordTicks "0 0 0 0 0 0 0 0 0 0 0 0 0 xx 7".toList).1 = 0 := by
  constructor
  · exact getCPUStats_record_tolerance.1 "12 (x)".toList [] (by decide)
  · exact (getCPUStats_record_tolerance.2.1
      "0 0 0 0 0 0 0 0 0 0 0 0 0 xx 7".toList (by decide)).1 (by decide)

/-- C1: for a fully resolved VM the published triple is the clamp of
`100 * delta / ((tick / 10) * vcpuCount)` for each of the user, system and
iowait deltas between the two snapshots. -/
theorem collect_formula (tick : Int) (env : Env) (vm pid : String)
    (v u1 s1 u2 s2 w1 w2 : Int)
    (ht : 0 < tick) (hv : 0 < v)
    (hvc : env.vcpuOut vm = Except.ok v)
    (hp : env.pidOut vm = Except.ok pid) (hpne : pid ≠ "")
    (h1 : getCPUStats (env.tasks1 pid) = Except.ok (u1, s1))
    (h2 : getIOWait (env.statFile1 vm) = Except.ok w1)
    (h3 : getCPUStats (env.tasks2 pid) = Except.ok (u2, s2))
    (h4 : getIOWait (env.statFile2 vm) = Except.ok w2) :
    processVM tick env vm =
      some (clampNonneg (100 * ((u2 - u1 : Int) : ℚ) / ((tick : ℚ) / 10 * (v : ℚ))),
            clampNonneg (100 * ((s2 - s1 : Int) : ℚ) / ((tick : ℚ) / 10 * (v : ℚ))),
            clampNonneg (100 * ((w2 - w1 : Int) : ℚ) / ((tick : ℚ) / 10 * (v : ℚ)))) := by
  have hv0 : v ≠ 0 := by omega
  simp only [processVM, hvc, hp, h1, h2, h3, h4]
  rw [if_neg hv0, if_neg hpne]
  rw [mul_comm ((u2 - u1 : Int) : ℚ) 100, mul_comm ((s2 - s1 : Int) : ℚ) 100,
      mul_comm ((w2 - w1 : Int) : ℚ) 100]

/-- C3: the clamp maps a negative raw percentage to exactly 0 and leaves a
non-negative one unchanged, so every component of a published triple is
non-negative. -/
theorem clamp_published_nonneg :
    (∀ q : ℚ, q < 0 → clampNonneg q = 0) ∧
    (∀ q : ℚ, 0 ≤ q → clampNonneg q = q) ∧
    (∀ (tick : Int) (env : Env) (vm : String) (p : ℚ × ℚ × ℚ),
      processVM tick env vm = some p → 0 ≤ p.1 ∧ 0 ≤ p.2.1 ∧ 0 ≤ p.2.2) := by
  refine ⟨fun q hq => if_pos hq, fun q hq => if_neg (not_lt.mpr hq), ?_⟩
  intro tick env vm p hp
  unfold processVM at hp
  repeat' split at hp
  all_goals
    first
      | exact Option.noConfusion hp
      | (obtain rfl := (Option.some.inj hp).symm
         exact ⟨clampNonneg_nonneg _, clampNonneg_nonneg _, clampNonneg_nonneg _⟩)

/-- C5: a VM-enumeration failure abandons the whole cycle with no gauge
writes at all; the cycle result is returned normally rather than an error
being raised. -/
theorem collect_abandons_on_discovery_error (tick : Int) (env : Env)
    (h : env.vmList = Except.error ()) :
    collectCycle tick env = [] := by
  simp [collectCycle, h]

/-- C6: a VM hitting any per-VM skip condition (metadata failure or empty
result, or a failed snapshot read) is skipped for the cycle, while every
other VM of the same cycle that resolves fully still has its triple
published. -/
theorem collect_skip_isolated (tick : Int) (env : Env) (vms : List String)
    (vm vmOther : String) (r : ℚ × ℚ × ℚ)
    (hlist : env.vmList = Except.ok vms)
    (hfail : vmCycleFailure env vm)
    (hmem : vmOther ∈ vms)
    (hr : processVM tick env vmOther = some r) :
    processVM tick env vm = none ∧
    (vmOther, r.1, r.2.1, r.2.2) ∈ collectCycle tick env := by
  constructor
  · rcases hfail with h | h | ⟨v, hv, hv0, h | h | ⟨p, hp, hp0, h | h | h | h⟩⟩
    · simp [processVM, h]
    · simp [processVM, h]
    · simp [processVM, hv, hv0, h]
    · simp [processVM, hv, hv0, h]
    · simp [processVM, hv, hv0, hp, hp0, h]
    · cases h1 : getCPUStats (env.tasks1 p) with
      | error e => simp [processVM, hv, hv0, hp, hp0, h1]
      | ok pr =>
        obtain ⟨a, b⟩ := pr
        simp [processVM, hv, hv0, hp, hp0, h1, h]
    · cases h1 : getCPUStats (env.tasks1 p) with
      | error e => simp [processVM, hv, hv0, hp, hp0, h1]
      | ok pr =>
        obtain ⟨a, b⟩ := pr
        cases h2 : getIOWait (env.statFile1 vm) with
        | error e => simp [processVM, hv, hv0, hp, hp0, h1, h2]
        | ok w => simp [processVM, hv, hv0, hp, hp0, h1, h2, h]
    · cases h1 : getCPUStats (env.tasks1 p) with
      | error e => simp [processVM, hv, hv0, hp, hp0, h1]
      | ok pr =>
        obtain ⟨a, b⟩ := pr
        cases h2 : getIOWait (env.statFile1 vm) with
        | error e => simp [processVM, hv, hv0, hp, hp0, h1, h2]
        | ok w =>
          cases h3 : getCPUStats (env.tasks2 p) with
          | error e => simp [processVM, hv, hv0, hp, hp0, h1, h2, h3]
          | ok pr2 =>
            obtain ⟨a2, b2⟩ := pr2
            simp [processVM, hv, hv0, hp, hp0, h1, h2, h3, h]
  · unfold collectCycle
    rw [hlist]
    simp only [List.mem_filterMap]
    exact ⟨vmOther, hmem, by rw [hr]; rfl⟩

/-- C7: a VM whose vCPU lookup resolves to 0 is skipped without an error
state, and no gauge write of the cycle carries its label. -/
theorem collect_zero_vcpu_skipped (tick : Int) (env : Env) (vm : String)
    (h : env.vcpuOut vm = Except.ok 0) :
    processVM tick env vm = none ∧
    ∀ x ∈ collectCycle tick env, x.1 ≠ vm := by
  have hnone : processVM tick env vm = none := by simp [processVM, h]
  refine ⟨hnone, fun x hx => ?_⟩
  unfold collectCycle at hx
  cases hl : env.vmList with
  | error e =>
    rw [hl] at hx
    simp at hx
  | ok vms =>
    rw [hl] at hx
    simp only [List.mem_filterMap] at hx
    obtain ⟨vm', hmem, hmap⟩ := hx
    cases hpv : processVM tick env vm' with
    | none =>
      rw [hpv] at hmap
      exact absurd hmap (by simp)
    | some r =>
      rw [hpv] at hmap
      simp only [Option.map_some', Option.some.injEq] at hmap
      intro hxvm
      rw [← hmap] at hxvm
      rw [show vm' = vm from hxvm, hnone] at hpv
      exact Option.noConfusion hpv

/-- C8: identical counters across the two snapshots (all three deltas zero)
publish exactly (0, 0, 0). -/
theorem collect_idle_zero (tick : Int) (env : Env) (vm pid : String)
    (v u s w : Int)
    (ht : 0 < tick) (hv : v ≠ 0)
    (hvc : env.vcpuOut vm = Except.ok v)
    (hp : env.pidOut vm = Except.ok pid) (hpne : pid ≠ "")
    (h1 : getCPUStats (env.tasks1 pid) = Except.ok (u, s))
    (h2 : getIOWait (env.statFile1 vm) = Except.ok w)
    (h3 : getCPUStats (env.tasks2 pid) = Except.ok (u, s))
    (h4 : getIOWait (env.statFile2 vm) = Except.ok w) :
    processVM tick env vm = some (0, 0, 0) := by
  simp [processVM, hvc, hp, h1, h2, h3, h4, hv, hpne, clampNonneg]

/-- A concrete cycle with tick = 100: `vm1` resolves to 2 vCPUs and PID 9
with Δuser = 5, `vm2`'s process-table lookup finds no match (empty PID),
and `z` resolves to 0 vCPUs. -/
def demoEnv : Env where
  vmList := Except.ok ["vm1", "vm2", "z"]
  vcpuOut := fun vm =>
    if vm = "vm1" then Except.ok 2
    else if vm = "vm2" then Except.ok 1
    else if vm = "z" then Except.ok 0
    else Except.error ()
  pidOut := fun vm =>
    if vm = "vm1" then Except.ok "9"
    else if vm = "vm2" then Except.ok ""
    else Except.ok "4"
  tasks1 := fun p =>
    if p = "9" then Except.ok [Except.ok "0 0 0 0 0 0 0 0 0 0 0 0 0 0 0".toList]
    else Except.error ()
  statFile1 := fun _ => Except.ok "cpu 0 0 0 0 0".toList
  tasks2 := fun p =>
    if p = "9" then Except.ok [Except.ok "0 0 0 0 0 0 0 0 0 0 0 0 0 5 0".toList]
    else Except.error ()
  statFile2 := fun _ => Except.ok "cpu 0 0 0 0 0".toList

/-- An idle VM: both snapshots read identical counters. -/
def demoIdleEnv : Env where
  vmList := Except.ok ["vm3"]
  vcpuOut := fun _ => Except.ok 4
  pidOut := fun _ => Except.ok "5"
  tasks1 := fun _ => Except.ok [Except.ok "0 0 0 0 0 0 0 0 0 0 0 0 0 5 0".toList]
  statFile1 := fun _ => Except.ok "cpu 0 0 0 0 3".toList
  tasks2 := fun _ => Except.ok [Except.ok "0 0 0 0 0 0 0 0 0 0 0 0 0 5 0".toList]
  statFile2 := fun _ => Except.ok "cpu 0 0 0 0 3".toList

/-- A cycle whose VM enumeration fails. -/
def discoveryFailEnv : Env where
  vmList := Except.error ()
  vcpuOut := fun _ => Except.error ()
  pidOut := fun _ => Except.error ()
  tasks1 := fun _ => Except.error ()
  statFile1 := fun _ => Except.error ()
  tasks2 := fun _ => Except.error ()
  statFile2 := fun _ => Except.error ()

lemma demoEnv_vm1 : processVM 100 demoEnv "vm1" = some (25, 0, 0) := by
  have h1 : demoEnv.vcpuOut "vm1" = Except.ok 2 := rfl
  have h2 : demoEnv.pidOut "vm1" = Except.ok "9" := rfl
  have h3 : getCPUStats (demoEnv.tasks1 "9") = Except.ok (0, 0) := rfl
  have h4 : getIOWait (demoEnv.statFile1 "vm1") = Except.ok 0 := rfl
  have h5 : getCPUStats (demoEnv.tasks2 "9") = Except.ok (5, 0) := rfl
  have h6 : getIOWait (demoEnv.statFile2 "vm1") = Except.ok 0 := rfl
  simp [processVM, h1, h2, h3, h4, h5, h6]
  norm_num [clampNonneg]

/-- Witness for C1: tick = 100, 2 vCPUs, Δuser = 5 publishes exactly
(25, 0, 0). -/
theorem collect_formula_witness :
    processVM 100 demoEnv "vm1" = some (25, 0, 0) := by
  have h := collect_formula 100 demoEnv "vm1" "9" 2 0 0 5 0 0 0
    (by norm_num) (by norm_num) rfl rfl (by decide) rfl rfl rfl rfl
  rw [h]
  norm_num [clampNonneg]

/-- Witness for C3: the clamp at −3 and at 25, and the non-negativity of a
concrete published triple. -/
theorem clamp_published_nonneg_witness :
    clampNonneg (-3) = 0 ∧ clampNonneg 25 = 25 ∧
    (0 ≤ (25 : ℚ) ∧ 0 ≤ (0 : ℚ) ∧ 0 ≤ (0 : ℚ)) :=
  ⟨clamp_published_nonneg.1 (-3) (by norm_num),
   clamp_published_nonneg.2.1 25 (by norm_num),
   clamp_published_nonneg.2.2 100 demoEnv "vm1" (25, 0, 0) demoEnv_vm1⟩

/-- Witness for C5: a failed enumeration yields an empty write list. -/
theorem collect_abandons_on_discovery_error_witness :
    collectCycle 100 discoveryFailEnv = [] :=
  collect_abandons_on_discovery_error 100 discoveryFailEnv rfl

/-- Witness for C6: `vm2` (no process-table match) is skipped while `vm1`'s
triple is still published in the same cycle. -/
theorem collect_skip_isolated_witness :
    processVM 100 demoEnv "vm2" = none ∧
    ("vm1", (25 : ℚ), (0 : ℚ), (0 : ℚ)) ∈ collectCycle 100 demoEnv :=
  collect_skip_isolated 100 demoEnv ["vm1", "vm2", "z"] "vm2" "vm1" (25, 0, 0)
    rfl
    (Or.inr (Or.inr ⟨1, rfl, one_ne_zero, Or.inr (Or.inl rfl)⟩))
    (by simp)
    demoEnv_vm1

/-- Witness for C7: `z` resolves to 0 vCPUs, is skipped, and no write of
the cycle carries its label. -/
theorem collect_zero_vcpu_skipped_witness :
    processVM 100 demoEnv "z" = none ∧
    ∀ x ∈ collectCycle 100 demoEnv, x.1 ≠ "z" :=
  collect_zero_vcpu_skipped 100 demoEnv "z" rfl

/-- Witness for C8: identical snapshots publish (0, 0, 0). -/
theorem collect_idle_zero_witness :
    processVM 100 demoIdleEnv "vm3" = some (0, 0, 0) :=
  collect_idle_zero 100 demoIdleEnv "vm3" "5" 4 5 0 3
    (by norm_num) (by norm_num) rfl rfl (by decide) rfl rfl rfl rfl

end KvirtExporter
